import Mathlib

/-!
Shallow embedding of the GCE group reconciliation engine
(plugin/group/plugin.go) and the parts of its collaborators it needs.

External collaborators (the cloud driver, the flavor plugins, the raw
JSON parsers of the infrakit types packages and the gcloud helper
package) are modelled as records of response functions passed in as
parameters; the engine itself is translated statement by statement from
the Go source.  Driver calls are recorded in a trace so that theorems
can speak about exactly which operations a commit or destroy issues.
-/

namespace InfrakitGcp

/-- Opaque raw JSON bytes. -/
abbrev Raw := String

/-- Modelled from the spec: the normalized, comparable instance
properties record (`instance_types.Properties`, whose source file is not
part of the core under verification); fields are those the engine reads:
name prefix, description, machine type, network, disk size, image,
type, tags, scopes, preemptibility, target pool. -/
structure Properties where
  namePrefix : String
  description : String
  machineType : String
  network : String
  diskSizeMb : Int
  diskImage : String
  diskType : String
  tags : List String
  scopes : List String
  preemptible : Bool
  targetPool : String
  deriving DecidableEq, Repr

/-- `group.Spec`: raw group specification (ID plus raw properties). -/
structure GroupSpec where
  id : String
  properties : Raw
  deriving DecidableEq, Repr

/-- `types.AllocationMethod`: desired size and (unsupported) logical IDs.
`none` models a nil Go slice (field absent or null); `some l` models a
present slice, possibly empty. -/
structure Allocation where
  size : Int
  logicalIDs : Option (List String)
  deriving DecidableEq, Repr

/-- `types.FlavorPlugin` reference inside a parsed group spec. -/
structure FlavorSpec where
  plugin : String
  properties : Raw
  deriving DecidableEq, Repr

/-- The instance member of a parsed group spec (raw properties). -/
structure InstancePluginSpec where
  properties : Raw
  deriving DecidableEq, Repr

/-- `types.Spec`: a parsed group specification. -/
structure Spec where
  allocation : Allocation
  flavor : FlavorSpec
  inst : InstancePluginSpec
  deriving DecidableEq, Repr

/-- `instance.Spec`: tags plus optional raw instance properties. -/
structure InstanceSpec where
  tags : List (String × String)
  properties : Option Raw
  deriving DecidableEq, Repr

/-- The per-group registry value (`settings` in the source). -/
structure Settings where
  spec : Spec
  groupSpec : GroupSpec
  instanceSpec : InstanceSpec
  instanceProperties : Properties
  currentTemplate : Int
  createdTemplates : List String
  deriving DecidableEq, Repr

/-- `gcloud.InstanceSettings`: payload of a CreateInstanceTemplate call. -/
structure InstanceSettings where
  description : String
  machineType : String
  network : String
  tags : List String
  diskSizeMb : Int
  diskImage : String
  diskType : String
  scopes : List String
  preemptible : Bool
  autoDeleteDisk : Bool
  reuseExistingDisk : Bool
  metaData : List (String × String)
  deriving DecidableEq, Repr

/-- `gcloud.InstanceManagerSettings`: payload of a
CreateInstanceGroupManager call. -/
structure InstanceManagerSettings where
  templateName : String
  targetSize : Int
  description : String
  targetPool : String
  baseInstanceName : String
  deriving DecidableEq, Repr

/-- One call issued to the cloud driver (`gcloud.API`). -/
inductive DriverCall where
  | createInstanceTemplate (name : String) (s : InstanceSettings)
  | deleteInstanceTemplate (name : String)
  | createInstanceGroupManager (name : String) (s : InstanceManagerSettings)
  | setInstanceTemplate (groupName : String) (templateName : String)
  | resizeInstanceGroupManager (name : String) (targetSize : Int)
  | deleteInstanceGroupManager (name : String)
  | listInstanceGroupInstances (name : String)
  | getInstance (name : String)
  deriving DecidableEq, Repr

/-- An instance record returned by the driver for GetInstance. -/
structure InstanceRecord where
  name : String
  metadataItems : List (String × String)
  deriving DecidableEq, Repr

/-- Responses of the cloud driver: for each operation, what it returns
when called.  Failures of the external collaborator are arbitrary. -/
structure API where
  createInstanceTemplateR : String → InstanceSettings → Except String Unit
  deleteInstanceTemplateR : String → Except String Unit
  createInstanceGroupManagerR : String → InstanceManagerSettings → Except String Unit
  setInstanceTemplateR : String → String → Except String Unit
  resizeInstanceGroupManagerR : String → Int → Except String Unit
  deleteInstanceGroupManagerR : String → Except String Unit
  listInstanceGroupInstancesR : String → Except String (List String)
  getInstanceR : String → Except String InstanceRecord

/-- A flavor plugin: validation and preparation hooks. -/
structure FlavorPlugin where
  validateF : Raw → Allocation → Except String Unit
  prepareF : Raw → InstanceSpec → Allocation → Except String InstanceSpec

/-- The remaining external collaborators: flavor-plugin lookup and the
pure parsing/encoding helpers of the types and gcloud packages. -/
structure Env where
  flavorPlugins : String → Except String FlavorPlugin
  parseProperties : GroupSpec → Except String Spec
  parseInstanceProperties : Option Raw → Except String Properties
  parseMetadata : InstanceSpec → Except String (List (String × String))
  tagsToMetaData : List (String × String) → List (String × String)
  metaDataToTags : List (String × String) → List (String × String)

/-- The registry of watched groups (`p.groups`), as an association list
with the leftmost binding authoritative. -/
abbrev Registry := List (String × Settings)

/-- Go map read `p.groups[id]`. -/
def lookupG : Registry → String → Option Settings
  | [], _ => none
  | (k, v) :: rest, id => if k = id then some v else lookupG rest id

/-- Go map write `p.groups[id] = s`: replace in place, or append. -/
def insertG : Registry → String → Settings → Registry
  | [], id, s => [(id, s)]
  | (k, v) :: rest, id, s =>
      if k = id then (id, s) :: rest else (k, v) :: insertG rest id s

/-- Go map delete `delete(p.groups, id)`. -/
def removeG : Registry → String → Registry
  | [], _ => []
  | (k, v) :: rest, id =>
      if k = id then removeG rest id else (k, v) :: removeG rest id

def msgBlankID : String := "Group ID must not be blank"

def msgLogicalIDs : String := "Allocation.LogicalIDs is not supported"

def msgSizeNonPositive : String := "Allocation must be > 0"

def msgFlavorNotFound (plugin err : String) : String :=
  "Failed to find Flavor plugin \x27" ++ plugin ++ "\x27:" ++ err

def msgNotWatched (id : String) : String :=
  "This group is not being watched: \x27" ++ id

/-- `(p *plugin) validate(groupSpec group.Spec) (settings, error)`. -/
def validate (env : Env) (groupSpec : GroupSpec) : Except String Settings :=
  if groupSpec.id = "" then .error msgBlankID
  else
    match env.parseProperties groupSpec with
    | .error e => .error e
    | .ok spec =>
      if spec.allocation.logicalIDs.isSome then .error msgLogicalIDs
      else if spec.allocation.size ≤ 0 then .error msgSizeNonPositive
      else
        match env.flavorPlugins spec.flavor.plugin with
        | .error e => .error (msgFlavorNotFound spec.flavor.plugin e)
        | .ok flavorPlugin =>
          match flavorPlugin.validateF spec.flavor.properties spec.allocation with
          | .error e => .error e
          | .ok _ =>
            match flavorPlugin.prepareF spec.flavor.properties
                { tags := [], properties := some spec.inst.properties }
                spec.allocation with
            | .error e => .error e
            | .ok instanceSpec =>
              match env.parseInstanceProperties instanceSpec.properties with
              | .error e => .error e
              | .ok instanceProperties =>
                .ok { spec := spec
                      groupSpec := groupSpec
                      instanceSpec := instanceSpec
                      instanceProperties := instanceProperties
                      currentTemplate := 1
                      createdTemplates := [] }

def nl : String := "\n"

def slashChar : Char := '/'

def msgEmpty : String := ""

/-- The InstanceSettings payload built at the CreateInstanceTemplate
call site (source lines 160-173). -/
def buildInstanceSettings (env : Env) (settings : Settings)
    (metadata : List (String × String)) : InstanceSettings :=
  { description := settings.instanceProperties.description
    machineType := settings.instanceProperties.machineType
    network := settings.instanceProperties.network
    tags := settings.instanceProperties.tags
    diskSizeMb := settings.instanceProperties.diskSizeMb
    diskImage := settings.instanceProperties.diskImage
    diskType := settings.instanceProperties.diskType
    scopes := settings.instanceProperties.scopes
    preemptible := settings.instanceProperties.preemptible
    autoDeleteDisk := true
    reuseExistingDisk := false
    metaData := env.tagsToMetaData metadata }

/-- Sequencing of one fallible driver step with the rest of the commit:
on failure, return the error with the registry untouched and only the
calls issued so far; on success, continue and prepend this step's calls
(the Go early-return pattern of source lines 150-204). -/
def seqStep (groups : Registry) (step : Except String Unit × List DriverCall)
    (k : Except String String × Registry × List DriverCall) :
    Except String String × Registry × List DriverCall :=
  match step with
  | (.error e, tr) => (.error e, groups, tr)
  | (.ok _, tr) =>
    match k with
    | (r, g2, tr2) => (r, g2, tr ++ tr2)

/-- The settings stored by a non-dry-run commit: the (possibly
version-bumped) settings with the template name of this commit appended
to the created-template history (source lines 151-152). -/
def commitStore (name : String) (settings : Settings) : Settings :=
  { settings with
      createdTemplates :=
        settings.createdTemplates ++
          [name ++ "-" ++ toString settings.currentTemplate] }

/-- Driver phase of CommitGroup (source lines 150-208): when not
pretending, append the template name to the created-template history and
issue the selected driver calls in source order, aborting on the first
failure without touching the registry; finally store the settings. -/
def execCommit (env : Env) (api : API) (groups : Registry) (name : String)
    (pretend : Bool) (operations : List String)
    (createManager createTemplate updateManager resize : Bool)
    (settings : Settings) (targetSize : Int) :
    Except String String × Registry × List DriverCall :=
  if pretend then
    (.ok (String.intercalate nl operations), insertG groups name settings, [])
  else
    let templateName := name ++ "-" ++ toString settings.currentTemplate
    let settings := commitStore name settings
    let tplStep : Except String Unit × List DriverCall :=
      if createTemplate then
        match env.parseMetadata settings.instanceSpec with
        | .error e => (.error e, [])
        | .ok metadata =>
          let is := buildInstanceSettings env settings metadata
          (api.createInstanceTemplateR templateName is,
           [DriverCall.createInstanceTemplate templateName is])
      else (.ok (), [])
    let mgrStep : Except String Unit × List DriverCall :=
      if createManager then
        let ms : InstanceManagerSettings :=
          { templateName := name ++ "-" ++ toString settings.currentTemplate
            targetSize := targetSize
            description := settings.instanceProperties.description
            targetPool := settings.instanceProperties.targetPool
            baseInstanceName := settings.instanceProperties.namePrefix }
        (api.createInstanceGroupManagerR name ms,
         [DriverCall.createInstanceGroupManager name ms])
      else (.ok (), [])
    let updStep : Except String Unit × List DriverCall :=
      if updateManager then
        (api.setInstanceTemplateR name templateName,
         [DriverCall.setInstanceTemplate name templateName])
      else (.ok (), [])
    let resizeStep : Except String Unit × List DriverCall :=
      if resize then
        (api.resizeInstanceGroupManagerR name targetSize,
         [DriverCall.resizeInstanceGroupManager name targetSize])
      else (.ok (), [])
    seqStep groups tplStep
      (seqStep groups mgrStep
        (seqStep groups updStep
          (seqStep groups resizeStep
            (.ok (String.intercalate nl operations),
             insertG groups name settings, []))))

/-- `(p *plugin) CommitGroup(config group.Spec, pretend bool)` (source
lines 108-209).  Returns the result, the registry afterwards, and the
trace of driver calls issued. -/
def CommitGroup (env : Env) (api : API) (groups : Registry)
    (config : GroupSpec) (pretend : Bool) :
    Except String String × Registry × List DriverCall :=
  match validate env config with
  | .error e => (.error e, groups, [])
  | .ok newSettings =>
    let name := config.id
    let targetSize := newSettings.spec.allocation.size
    match lookupG groups config.id with
    | none =>
      let operations :=
        ["Managing " ++ toString targetSize ++ " instances"]
      execCommit env api groups name pretend operations
        true true false false newSettings targetSize
    | some stored =>
      let step1 : List String × Bool × Settings :=
        if stored.instanceProperties ≠ newSettings.instanceProperties then
          (["Updating instance template"], true,
           if pretend then stored
           else { stored with currentTemplate := stored.currentTemplate + 1 })
        else ([], false, stored)
      match step1 with
      | (ops1, createTemplate, settings) =>
        let step2 : List String × Bool :=
          if settings.spec.allocation.size ≠ newSettings.spec.allocation.size then
            (["Scaling group to " ++ toString targetSize ++ " instance."], true)
          else ([], false)
        match step2 with
        | (ops2, resize) =>
          execCommit env api groups name pretend (ops1 ++ ops2)
            false createTemplate false resize settings targetSize

/-- `(p *plugin) FreeGroup(id group.ID)` (source lines 211-223). -/
def FreeGroup (groups : Registry) (id : String) :
    Except String Unit × Registry :=
  match lookupG groups id with
  | none => (.error (msgNotWatched id), groups)
  | some _ => (.ok (), removeG groups id)

/-- Structural split of a character list on a separator, with the
semantics of Go strings.Split for a one-character separator: the result
is never empty, and splitting the empty string yields one empty part. -/
def splitChar (sep : Char) : List Char → List (List Char)
  | [] => [[]]
  | c :: rest =>
    match splitChar sep rest with
    | groups =>
      if c = sep then [] :: groups
      else
        match groups with
        | [] => [[c]]
        | grp :: gs => (c :: grp) :: gs

/-- `last(url string)` (source lines 303-306): split on the slash and
take the final part. -/
def last (url : String) : String :=
  let parts := (splitChar slashChar url.data).map String.mk
  parts.getLastD msgEmpty

/-- One instance as reported by DescribeGroup. -/
structure InstanceDescription where
  id : String
  tags : List (String × String)
  deriving DecidableEq, Repr

/-- Result of DescribeGroup. -/
structure Description where
  converged : Bool
  instances : List InstanceDescription
  deriving DecidableEq, Repr

/-- The member-fetch loop of DescribeGroup (source lines 245-257). -/
def describeInstancesLoop (env : Env) (api : API) :
    List String → Except String (List InstanceDescription) × List DriverCall
  | [] => (.ok [], [])
  | url :: rest =>
    let name := last url
    match api.getInstanceR name with
    | .error e => (.error e, [DriverCall.getInstance name])
    | .ok inst =>
      match describeInstancesLoop env api rest with
      | (.error e, tr) => (.error e, DriverCall.getInstance name :: tr)
      | (.ok ds, tr) =>
        (.ok ({ id := inst.name
                tags := env.metaDataToTags inst.metadataItems } :: ds),
         DriverCall.getInstance name :: tr)

/-- `(p *plugin) DescribeGroup(id group.ID)` (source lines 225-263). -/
def DescribeGroup (env : Env) (api : API) (groups : Registry) (id : String) :
    Except String Description × List DriverCall :=
  match lookupG groups id with
  | none => (.error (msgNotWatched id), [])
  | some currentSettings =>
    let name := id
    match api.listInstanceGroupInstancesR name with
    | .error e => (.error e, [DriverCall.listInstanceGroupInstances name])
    | .ok instanceGroupInstances =>
      match describeInstancesLoop env api instanceGroupInstances with
      | (.error e, tr) =>
        (.error e, DriverCall.listInstanceGroupInstances name :: tr)
      | (.ok instances, tr) =>
        (.ok { converged :=
                 (instanceGroupInstances.length : Int)
                   == currentSettings.spec.allocation.size
               instances := instances },
         DriverCall.listInstanceGroupInstances name :: tr)

/-- The template-deletion loop of DestroyGroup (source lines 280-284). -/
def deleteTemplatesLoop (api : API) :
    List String → Except String Unit × List DriverCall
  | [] => (.ok (), [])
  | t :: rest =>
    match api.deleteInstanceTemplateR t with
    | .error e => (.error e, [DriverCall.deleteInstanceTemplate t])
    | .ok _ =>
      match deleteTemplatesLoop api rest with
      | (r, tr) => (r, DriverCall.deleteInstanceTemplate t :: tr)

/-- `(p *plugin) DestroyGroup(id group.ID)` (source lines 265-289). -/
def DestroyGroup (api : API) (groups : Registry) (id : String) :
    Except String Unit × Registry × List DriverCall :=
  match lookupG groups id with
  | none => (.error (msgNotWatched id), groups, [])
  | some currentSettings =>
    let name := id
    match api.deleteInstanceGroupManagerR name with
    | .error e => (.error e, groups, [DriverCall.deleteInstanceGroupManager name])
    | .ok _ =>
      match deleteTemplatesLoop api currentSettings.createdTemplates with
      | (.error e, tr) =>
        (.error e, groups, DriverCall.deleteInstanceGroupManager name :: tr)
      | (.ok _, tr) =>
        (.ok (), removeG groups id,
         DriverCall.deleteInstanceGroupManager name :: tr)

/-- `(p *plugin) InspectGroups()` (source lines 291-301). -/
def InspectGroups (groups : Registry) : List GroupSpec :=
  groups.map (fun kv => kv.2.groupSpec)

/-! ### Concrete fixtures, used by witnesses and counterexamples -/

def propsA : Properties :=
  { namePrefix := "instance"
    description := "a test group"
    machineType := "n1-standard-1"
    network := "default"
    diskSizeMb := 10
    diskImage := "docker"
    diskType := "pd-standard"
    tags := ["tag1"]
    scopes := []
    preemptible := false
    targetPool := "pool" }

def propsB : Properties := { propsA with machineType := "n1-standard-2" }

def gidG : String := "g"

def gspecA : GroupSpec := { id := gidG, properties := "raw-group-spec" }

def gspecBlank : GroupSpec := { id := "", properties := "raw-group-spec" }

def specA : Spec :=
  { allocation := { size := 3, logicalIDs := none }
    flavor := { plugin := "flavor-a", properties := "flavor-props" }
    inst := { properties := "instance-props" } }

def specB : Spec := { specA with allocation := { size := 5, logicalIDs := none } }

def specE : Spec := { specA with allocation := { size := 3, logicalIDs := some [] } }

def flavorOK : FlavorPlugin :=
  { validateF := fun _ _ => .ok ()
    prepareF := fun _ is _ => .ok is }

def envOf (spec : Spec) : Env :=
  { flavorPlugins := fun _ => .ok flavorOK
    parseProperties := fun _ => .ok spec
    parseInstanceProperties := fun _ => .ok propsA
    parseMetadata := fun _ => .ok []
    tagsToMetaData := fun m => m
    metaDataToTags := fun m => m }

def envA : Env := envOf specA

def envB : Env := envOf specB

def envE : Env := envOf specE

/-- An environment whose parsed instance properties differ from the
stored ones (drives the template-replacement path). -/
def envC : Env := { envA with parseInstanceProperties := fun _ => .ok propsB }

def apiOK : API :=
  { createInstanceTemplateR := fun _ _ => .ok ()
    deleteInstanceTemplateR := fun _ => .ok ()
    createInstanceGroupManagerR := fun _ _ => .ok ()
    setInstanceTemplateR := fun _ _ => .ok ()
    resizeInstanceGroupManagerR := fun _ _ => .ok ()
    deleteInstanceGroupManagerR := fun _ => .ok ()
    listInstanceGroupInstancesR := fun _ => .ok ["zones/z/instances/i1"]
    getInstanceR := fun n => .ok { name := n, metadataItems := [] } }

def errBoom : String := "boom"

def apiFailTemplate : API :=
  { apiOK with createInstanceTemplateR := fun _ _ => .error errBoom }

def apiFailDeleteTemplate : API :=
  { apiOK with deleteInstanceTemplateR := fun _ => .error errBoom }

/-- The stored settings of group g after a first successful commit of
specA: version 1, history [g-1]. -/
def stA : Settings :=
  { spec := specA
    groupSpec := gspecA
    instanceSpec := { tags := [], properties := some specA.inst.properties }
    instanceProperties := propsA
    currentTemplate := 1
    createdTemplates := ["g-1"] }

def regA : Registry := [(gidG, stA)]

def gT1 : String := "g-1"

def msgManaging : String := "Managing 3 instances"

/-- The InstanceSettings payload of the first concrete commit. -/
def isA : InstanceSettings :=
  { description := propsA.description
    machineType := propsA.machineType
    network := propsA.network
    tags := propsA.tags
    diskSizeMb := propsA.diskSizeMb
    diskImage := propsA.diskImage
    diskType := propsA.diskType
    scopes := propsA.scopes
    preemptible := propsA.preemptible
    autoDeleteDisk := true
    reuseExistingDisk := false
    metaData := [] }

/-- The InstanceManagerSettings payload of the first concrete commit. -/
def msA : InstanceManagerSettings :=
  { templateName := gT1
    targetSize := 3
    description := propsA.description
    targetPool := propsA.targetPool
    baseInstanceName := propsA.namePrefix }

def trFirst : List DriverCall :=
  [DriverCall.createInstanceTemplate gT1 isA,
   DriverCall.createInstanceGroupManager gidG msA]

def urlI1 : String := "zones/z/instances/i1"

def instI1 : String := "i1"

def listIG : List String := [urlI1]

def dsA : List InstanceDescription := [{ id := instI1, tags := [] }]

/-- Trace of a first commit whose template creation fails. -/
def trFail : List DriverCall := [DriverCall.createInstanceTemplate gT1 isA]

/-- The settings produced by a successful validation of gspecA against
envA: version 1, no created templates yet. -/
def stNew : Settings :=
  { spec := specA
    groupSpec := gspecA
    instanceSpec := { tags := [], properties := some specA.inst.properties }
    instanceProperties := propsA
    currentTemplate := 1
    createdTemplates := [] }

/-- The registry value of group g after its first real commit. -/
def stFirst : Settings := { stNew with createdTemplates := [gT1] }

def regFirst : Registry := [(gidG, stFirst)]

/-- Settings validated from envB (size 5, same properties). -/
def stNewB : Settings := { stNew with spec := specB }

def msgScaling : String := "Scaling group to 5 instance."

/-- stA after a commit that created no template: the history got a
duplicate of the current template name appended anyway. -/
def stADup : Settings := { stA with createdTemplates := [gT1, gT1] }

def regADup : Registry := [(gidG, stADup)]

/-! ### Helper lemmas -/

theorem lookupG_insertG_self (g : Registry) (k : String) (v : Settings) :
    lookupG (insertG g k v) k = some v := by
  induction g with
  | nil => simp [insertG, lookupG]
  | cons kv rest ih =>
    by_cases h : kv.1 = k <;> simp [insertG, lookupG, h, ih]

theorem insertG_of_lookup {g : Registry} {k : String} {v : Settings}
    (h : lookupG g k = some v) : insertG g k v = g := by
  induction g with
  | nil => simp [lookupG] at h
  | cons kv rest ih =>
    by_cases hk : kv.1 = k
    · simp [lookupG, hk] at h
      cases kv with
      | mk k1 v1 => simp_all [insertG]
    · simp [lookupG, hk] at h
      simp [insertG, hk, ih h]

theorem validate_ok_shape {env : Env} {gs : GroupSpec} {s : Settings}
    (h : validate env gs = .ok s) :
    s.currentTemplate = 1 ∧ s.createdTemplates = [] := by
  unfold validate at h
  repeat' split at h
  all_goals try exact Except.noConfusion h
  simp only [Except.ok.injEq] at h
  subst h
  exact ⟨rfl, rfl⟩

theorem seqStep_ok {g : Registry} {step : Except String Unit × List DriverCall}
    {k : Except String String × Registry × List DriverCall}
    {msg : String} {g2 : Registry} {tr : List DriverCall}
    (h : seqStep g step k = (.ok msg, g2, tr)) :
    step.1 = .ok () ∧ ∃ tr2, k = (.ok msg, g2, tr2) ∧ tr = step.2 ++ tr2 := by
  obtain ⟨r, t⟩ := step
  cases r with
  | error e => simp [seqStep] at h
  | ok u =>
    obtain ⟨kr, kg, kt⟩ := k
    simp [seqStep] at h
    obtain ⟨h1, h2, h3⟩ := h
    exact ⟨rfl, kt, by simp [h1, h2], h3.symm⟩

theorem seqStep_error_reg (g : Registry)
    (step : Except String Unit × List DriverCall)
    (k : Except String String × Registry × List DriverCall) (e : String)
    (hk : ∀ e2, k.1 = .error e2 → k.2.1 = g)
    (h : (seqStep g step k).1 = .error e) : (seqStep g step k).2.1 = g := by
  obtain ⟨r, t⟩ := step
  cases r with
  | error e2 => simp [seqStep]
  | ok u =>
    obtain ⟨kr, kg, kt⟩ := k
    simp [seqStep] at h ⊢
    exact hk e h

theorem seqStep_trace_mem {g : Registry}
    {step : Except String Unit × List DriverCall}
    {k : Except String String × Registry × List DriverCall} {c : DriverCall}
    (hc : c ∈ (seqStep g step k).2.2) : c ∈ step.2 ∨ c ∈ k.2.2 := by
  obtain ⟨r, t⟩ := step
  cases r with
  | error e => simp [seqStep] at hc; exact Or.inl hc
  | ok u =>
    obtain ⟨kr, kg, kt⟩ := k
    simp [seqStep] at hc
    exact hc

theorem execCommit_pretend (env : Env) (api : API) (g : Registry)
    (name : String) (ops : List String) (cm ct um rs : Bool)
    (st : Settings) (ts : Int) :
    execCommit env api g name true ops cm ct um rs st ts =
      (.ok (String.intercalate nl ops), insertG g name st, []) := rfl

theorem execCommit_ok_noop {env : Env} {api : API} {g : Registry}
    {name : String} {ops : List String} {st : Settings} {ts : Int}
    {msg : String} {g2 : Registry} {tr : List DriverCall}
    (h : execCommit env api g name false ops false false false false st ts =
         (.ok msg, g2, tr)) :
    g2 = insertG g name (commitStore name st) ∧ tr = [] := by
  simp only [execCommit, Bool.false_eq_true, if_false, seqStep] at h
  simp only [Prod.mk.injEq, Except.ok.injEq] at h
  exact ⟨h.2.1.symm, h.2.2.symm⟩

theorem execCommit_ok_create {env : Env} {api : API} {g : Registry}
    {name : String} {ops : List String} {st : Settings} {ts : Int}
    {msg : String} {g2 : Registry} {tr : List DriverCall}
    (h : execCommit env api g name false ops true true false false st ts =
         (.ok msg, g2, tr)) :
    g2 = insertG g name (commitStore name st) ∧
    ∃ is, tr =
      [DriverCall.createInstanceTemplate
         (name ++ "-" ++ toString st.currentTemplate) is,
       DriverCall.createInstanceGroupManager name
         { templateName := name ++ "-" ++ toString st.currentTemplate
           targetSize := ts
           description := st.instanceProperties.description
           targetPool := st.instanceProperties.targetPool
           baseInstanceName := st.instanceProperties.namePrefix }] := by
  simp only [execCommit, Bool.false_eq_true, if_false, if_true] at h
  cases hmd : env.parseMetadata (commitStore name st).instanceSpec with
  | error e => simp [hmd, seqStep] at h
  | ok md =>
    simp only [hmd] at h
    cases h1 : api.createInstanceTemplateR
        (name ++ "-" ++ toString st.currentTemplate)
        (buildInstanceSettings env (commitStore name st) md) with
    | error e => simp [h1, seqStep] at h
    | ok u1 =>
      simp only [h1] at h
      cases h2 : api.createInstanceGroupManagerR name
          { templateName := name ++ "-" ++ toString (commitStore name st).currentTemplate
            targetSize := ts
            description := (commitStore name st).instanceProperties.description
            targetPool := (commitStore name st).instanceProperties.targetPool
            baseInstanceName := (commitStore name st).instanceProperties.namePrefix } with
      | error e => simp [h2, seqStep] at h
      | ok u2 =>
        simp only [h2] at h
        simp only [seqStep, Prod.mk.injEq, Except.ok.injEq, List.append_nil,
          List.nil_append, List.singleton_append, List.cons_append] at h
        refine ⟨h.2.1.symm, buildInstanceSettings env (commitStore name st) md, ?_⟩
        rw [← h.2.2]
        simp [commitStore]

theorem execCommit_ok_template {env : Env} {api : API} {g : Registry}
    {name : String} {ops : List String} {st : Settings} {ts : Int}
    {msg : String} {g2 : Registry} {tr : List DriverCall}
    (h : execCommit env api g name false ops false true false false st ts =
         (.ok msg, g2, tr)) :
    g2 = insertG g name (commitStore name st) ∧
    ∃ is, tr =
      [DriverCall.createInstanceTemplate
         (name ++ "-" ++ toString st.currentTemplate) is] := by
  simp only [execCommit, Bool.false_eq_true, if_false, if_true] at h
  cases hmd : env.parseMetadata (commitStore name st).instanceSpec with
  | error e => simp [hmd, seqStep] at h
  | ok md =>
    simp only [hmd] at h
    cases h1 : api.createInstanceTemplateR
        (name ++ "-" ++ toString st.currentTemplate)
        (buildInstanceSettings env (commitStore name st) md) with
    | error e => simp [h1, seqStep] at h
    | ok u1 =>
      simp only [h1] at h
      simp only [seqStep, Prod.mk.injEq, Except.ok.injEq, List.append_nil,
        List.nil_append] at h
      exact ⟨h.2.1.symm, buildInstanceSettings env (commitStore name st) md,
        h.2.2.symm⟩

theorem execCommit_ok_resize {env : Env} {api : API} {g : Registry}
    {name : String} {ops : List String} {st : Settings} {ts : Int}
    {msg : String} {g2 : Registry} {tr : List DriverCall}
    (h : execCommit env api g name false ops false false false true st ts =
         (.ok msg, g2, tr)) :
    g2 = insertG g name (commitStore name st) ∧
    tr = [DriverCall.resizeInstanceGroupManager name ts] := by
  simp only [execCommit, Bool.false_eq_true, if_false, if_true] at h
  cases hr : api.resizeInstanceGroupManagerR name ts with
  | error e => simp [hr, seqStep] at h
  | ok u =>
    simp only [hr] at h
    simp only [seqStep, Prod.mk.injEq, Except.ok.injEq, List.append_nil,
      List.nil_append] at h
    exact ⟨h.2.1.symm, h.2.2.symm⟩

theorem execCommit_ok_template_resize {env : Env} {api : API} {g : Registry}
    {name : String} {ops : List String} {st : Settings} {ts : Int}
    {msg : String} {g2 : Registry} {tr : List DriverCall}
    (h : execCommit env api g name false ops false true false true st ts =
         (.ok msg, g2, tr)) :
    g2 = insertG g name (commitStore name st) ∧
    ∃ is, tr =
      [DriverCall.createInstanceTemplate
         (name ++ "-" ++ toString st.currentTemplate) is,
       DriverCall.resizeInstanceGroupManager name ts] := by
  simp only [execCommit, Bool.false_eq_true, if_false, if_true] at h
  cases hmd : env.parseMetadata (commitStore name st).instanceSpec with
  | error e => simp [hmd, seqStep] at h
  | ok md =>
    simp only [hmd] at h
    cases h1 : api.createInstanceTemplateR
        (name ++ "-" ++ toString st.currentTemplate)
        (buildInstanceSettings env (commitStore name st) md) with
    | error e => simp [h1, seqStep] at h
    | ok u1 =>
      simp only [h1] at h
      cases hr : api.resizeInstanceGroupManagerR name ts with
      | error e => simp [hr, seqStep] at h
      | ok u2 =>
        simp only [hr] at h
        simp only [seqStep, Prod.mk.injEq, Except.ok.injEq, List.append_nil,
          List.nil_append, List.singleton_append, List.cons_append] at h
        exact ⟨h.2.1.symm, buildInstanceSettings env (commitStore name st) md,
          h.2.2.symm⟩

theorem seqStep4_error_reg {g : Registry}
    {s1 s2 s3 s4 : Except String Unit × List DriverCall}
    {r : Except String String} {reg : Registry} {t : List DriverCall}
    {e : String} {g2 : Registry} {tr : List DriverCall}
    (h : seqStep g s1 (seqStep g s2 (seqStep g s3 (seqStep g s4 (r, reg, t)))) =
         (.error e, g2, tr))
    (hr : ∀ e2, r ≠ .error e2) : g2 = g := by
  obtain ⟨r1, t1⟩ := s1
  cases r1 with
  | error e1 => simp [seqStep] at h; exact h.2.1.symm
  | ok u1 =>
    obtain ⟨r2, t2⟩ := s2
    cases r2 with
    | error e2 => simp [seqStep] at h; exact h.2.1.symm
    | ok u2 =>
      obtain ⟨r3, t3⟩ := s3
      cases r3 with
      | error e3 => simp [seqStep] at h; exact h.2.1.symm
      | ok u3 =>
        obtain ⟨r4, t4⟩ := s4
        cases r4 with
        | error e4 => simp [seqStep] at h; exact h.2.1.symm
        | ok u4 =>
          simp [seqStep] at h
          exact absurd h.1 (hr e)

theorem execCommit_error_frame {env : Env} {api : API} {g : Registry}
    {name : String} {pretend : Bool} {ops : List String} {cm ct um rs : Bool}
    {st : Settings} {ts : Int} {e : String} {g2 : Registry}
    {tr : List DriverCall}
    (h : execCommit env api g name pretend ops cm ct um rs st ts =
         (.error e, g2, tr)) : g2 = g := by
  cases pretend with
  | true => simp [execCommit] at h
  | false =>
    simp only [execCommit, Bool.false_eq_true, if_false] at h
    exact seqStep4_error_reg h (by simp)

theorem execCommit_trace_mem {env : Env} {api : API} {g : Registry}
    {name : String} {pretend : Bool} {ops : List String} {cm ct um rs : Bool}
    {st : Settings} {ts : Int} {c : DriverCall}
    (hc : c ∈ (execCommit env api g name pretend ops cm ct um rs st ts).2.2) :
    (∃ n is, c = DriverCall.createInstanceTemplate n is) ∨
    (∃ n ms, c = DriverCall.createInstanceGroupManager n ms) ∨
    (um = true ∧ ∃ a b, c = DriverCall.setInstanceTemplate a b) ∨
    (∃ n k, c = DriverCall.resizeInstanceGroupManager n k) := by
  cases pretend with
  | true => simp [execCommit] at hc
  | false =>
    simp only [execCommit, Bool.false_eq_true, if_false] at hc
    rcases seqStep_trace_mem hc with h1 | hc2
    · cases ct with
      | false => simp at h1
      | true =>
        cases hmd : env.parseMetadata (commitStore name st).instanceSpec with
        | error e => simp [hmd] at h1
        | ok md =>
          simp [hmd] at h1
          exact Or.inl ⟨_, _, h1⟩
    · rcases seqStep_trace_mem hc2 with h2 | hc3
      · cases cm with
        | false => simp at h2
        | true =>
          simp at h2
          exact Or.inr (Or.inl ⟨_, _, h2⟩)
      · rcases seqStep_trace_mem hc3 with h3 | hc4
        · cases um with
          | false => simp at h3
          | true =>
            simp at h3
            exact Or.inr (Or.inr (Or.inl ⟨rfl, _, _, h3⟩))
        · rcases seqStep_trace_mem hc4 with h4 | hc5
          · cases rs with
            | false => simp at h4
            | true =>
              simp at h4
              exact Or.inr (Or.inr (Or.inr ⟨_, _, h4⟩))
          · simp at hc5

theorem CommitGroup_validate_error (env : Env) (api : API) (g : Registry)
    (config : GroupSpec) (pretend : Bool) (e : String)
    (hv : validate env config = .error e) :
    CommitGroup env api g config pretend = (.error e, g, []) := by
  simp [CommitGroup, hv]

theorem CommitGroup_eq_absent (env : Env) (api : API) (g : Registry)
    (config : GroupSpec) (pretend : Bool) (newS : Settings)
    (hv : validate env config = .ok newS)
    (ha : lookupG g config.id = none) :
    CommitGroup env api g config pretend =
      execCommit env api g config.id pretend
        ["Managing " ++ toString newS.spec.allocation.size ++ " instances"]
        true true false false newS newS.spec.allocation.size := by
  simp [CommitGroup, hv, ha]

theorem CommitGroup_eq_noop (env : Env) (api : API) (g : Registry)
    (config : GroupSpec) (pretend : Bool) (newS st : Settings)
    (hv : validate env config = .ok newS)
    (hw : lookupG g config.id = some st)
    (hp : st.instanceProperties = newS.instanceProperties)
    (hs : st.spec.allocation.size = newS.spec.allocation.size) :
    CommitGroup env api g config pretend =
      execCommit env api g config.id pretend []
        false false false false st newS.spec.allocation.size := by
  simp [CommitGroup, hv, hw, hp, hs]

theorem CommitGroup_eq_resize (env : Env) (api : API) (g : Registry)
    (config : GroupSpec) (pretend : Bool) (newS st : Settings)
    (hv : validate env config = .ok newS)
    (hw : lookupG g config.id = some st)
    (hp : st.instanceProperties = newS.instanceProperties)
    (hs : st.spec.allocation.size ≠ newS.spec.allocation.size) :
    CommitGroup env api g config pretend =
      execCommit env api g config.id pretend
        ["Scaling group to " ++ toString newS.spec.allocation.size ++ " instance."]
        false false false true st newS.spec.allocation.size := by
  simp [CommitGroup, hv, hw, hp, hs]

theorem CommitGroup_eq_template (env : Env) (api : API) (g : Registry)
    (config : GroupSpec) (newS st : Settings)
    (hv : validate env config = .ok newS)
    (hw : lookupG g config.id = some st)
    (hp : st.instanceProperties ≠ newS.instanceProperties)
    (hs : st.spec.allocation.size = newS.spec.allocation.size) :
    CommitGroup env api g config false =
      execCommit env api g config.id false ["Updating instance template"]
        false true false false
        { st with currentTemplate := st.currentTemplate + 1 }
        newS.spec.allocation.size := by
  simp [CommitGroup, hv, hw, hp, hs]

theorem CommitGroup_eq_template_pretend (env : Env) (api : API) (g : Registry)
    (config : GroupSpec) (newS st : Settings)
    (hv : validate env config = .ok newS)
    (hw : lookupG g config.id = some st)
    (hp : st.instanceProperties ≠ newS.instanceProperties)
    (hs : st.spec.allocation.size = newS.spec.allocation.size) :
    CommitGroup env api g config true =
      execCommit env api g config.id true ["Updating instance template"]
        false true false false st newS.spec.allocation.size := by
  simp [CommitGroup, hv, hw, hp, hs]

theorem CommitGroup_eq_template_resize_pretend (env : Env) (api : API)
    (g : Registry) (config : GroupSpec) (newS st : Settings)
    (hv : validate env config = .ok newS)
    (hw : lookupG g config.id = some st)
    (hp : st.instanceProperties ≠ newS.instanceProperties)
    (hs : st.spec.allocation.size ≠ newS.spec.allocation.size) :
    CommitGroup env api g config true =
      execCommit env api g config.id true
        ["Updating instance template",
         "Scaling group to " ++ toString newS.spec.allocation.size ++ " instance."]
        false true false true st newS.spec.allocation.size := by
  simp [CommitGroup, hv, hw, hp, hs]

theorem CommitGroup_eq_template_resize (env : Env) (api : API) (g : Registry)
    (config : GroupSpec) (newS st : Settings)
    (hv : validate env config = .ok newS)
    (hw : lookupG g config.id = some st)
    (hp : st.instanceProperties ≠ newS.instanceProperties)
    (hs : st.spec.allocation.size ≠ newS.spec.allocation.size) :
    CommitGroup env api g config false =
      execCommit env api g config.id false
        ["Updating instance template",
         "Scaling group to " ++ toString newS.spec.allocation.size ++ " instance."]
        false true false true
        { st with currentTemplate := st.currentTemplate + 1 }
        newS.spec.allocation.size := by
  simp [CommitGroup, hv, hw, hp, hs]

/-! ### Claim theorems -/

/-- C1 (amended): a dry-run commit (`pretend = true`) issues no driver
calls, and when the committed group ID is already watched it leaves the
registry exactly unchanged (in particular the template version counter
is not bumped).  The original claim also asserted this for unknown group
IDs; there a successful dry-run commit inserts a registry entry, see the
counterexample. -/
theorem commitGroup_dry_run_frame_c1 (env : Env) (api : API) (g : Registry)
    (config : GroupSpec) :
    (CommitGroup env api g config true).2.2 = [] ∧
    (∀ st, lookupG g config.id = some st →
      (CommitGroup env api g config true).2.1 = g) := by
  cases hv : validate env config with
  | error e =>
    rw [CommitGroup_validate_error env api g config true e hv]
    exact ⟨rfl, fun st h => rfl⟩
  | ok newS =>
    cases hw : lookupG g config.id with
    | none =>
      rw [CommitGroup_eq_absent env api g config true newS hv hw,
        execCommit_pretend]
      exact ⟨rfl, fun st h => by cases h⟩
    | some st =>
      have hmain : (CommitGroup env api g config true).2.2 = [] ∧
          (CommitGroup env api g config true).2.1 = g := by
        by_cases hp : st.instanceProperties = newS.instanceProperties
        · by_cases hs : st.spec.allocation.size = newS.spec.allocation.size
          · rw [CommitGroup_eq_noop env api g config true newS st hv hw hp hs,
              execCommit_pretend]
            exact ⟨rfl, insertG_of_lookup hw⟩
          · rw [CommitGroup_eq_resize env api g config true newS st hv hw hp hs,
              execCommit_pretend]
            exact ⟨rfl, insertG_of_lookup hw⟩
        · by_cases hs : st.spec.allocation.size = newS.spec.allocation.size
          · rw [CommitGroup_eq_template_pretend env api g config newS st hv hw
              hp hs, execCommit_pretend]
            exact ⟨rfl, insertG_of_lookup hw⟩
          · rw [CommitGroup_eq_template_resize_pretend env api g config newS st
              hv hw hp hs, execCommit_pretend]
            exact ⟨rfl, insertG_of_lookup hw⟩
      exact ⟨hmain.1, fun st2 h2 => hmain.2⟩

/-- C1 witness: on a concrete watched registry, a dry-run commit issues
no driver calls and leaves the registry unchanged. -/
theorem commitGroup_dry_run_frame_c1_witness :
    (CommitGroup envA apiOK regA gspecA true).2.2 = [] ∧
    (CommitGroup envA apiOK regA gspecA true).2.1 = regA :=
  ⟨(commitGroup_dry_run_frame_c1 envA apiOK regA gspecA).1,
   (commitGroup_dry_run_frame_c1 envA apiOK regA gspecA).2 stA rfl⟩

/-- C1 counterexample: a dry-run commit of a group ID absent from the
registry changes the registry (it inserts an entry for the group), so
dry-run commits do not always leave the registry unchanged. -/
theorem commitGroup_dry_run_counterexample_c1 :
    (CommitGroup envA apiOK ([] : Registry) gspecA true).2.1 ≠
      ([] : Registry) := by decide

/-- C10: a successful dry-run commit of a group ID not yet in the
registry issues no driver calls but inserts a registry entry for the ID
with template version 1 and an empty created-template history; the
group thereby becomes watched (the not-watched check of FreeGroup, and
likewise of DescribeGroup and DestroyGroup, which all test the same
lookup, passes afterwards). -/
theorem commitGroup_dry_run_inserts_c10 (env : Env) (api : API) (g : Registry)
    (config : GroupSpec) (newS : Settings)
    (hv : validate env config = .ok newS)
    (ha : lookupG g config.id = none) :
    (CommitGroup env api g config true).2.2 = [] ∧
    (CommitGroup env api g config true).2.1 = insertG g config.id newS ∧
    lookupG (CommitGroup env api g config true).2.1 config.id = some newS ∧
    newS.currentTemplate = 1 ∧ newS.createdTemplates = [] ∧
    (FreeGroup (CommitGroup env api g config true).2.1 config.id).1 = .ok () := by
  have hsh := validate_ok_shape hv
  rw [CommitGroup_eq_absent env api g config true newS hv ha, execCommit_pretend]
  refine ⟨rfl, rfl, ?_, hsh.1, hsh.2, ?_⟩
  · exact lookupG_insertG_self g config.id newS
  · simp [FreeGroup, lookupG_insertG_self]

/-- C10 witness: concrete dry-run commit of an unwatched group. -/
theorem commitGroup_dry_run_inserts_c10_witness :
    (CommitGroup envA apiOK ([] : Registry) gspecA true).2.2 = [] ∧
    (CommitGroup envA apiOK ([] : Registry) gspecA true).2.1 =
      insertG ([] : Registry) gspecA.id stNew ∧
    lookupG (CommitGroup envA apiOK ([] : Registry) gspecA true).2.1
      gspecA.id = some stNew ∧
    stNew.currentTemplate = 1 ∧ stNew.createdTemplates = [] ∧
    (FreeGroup (CommitGroup envA apiOK ([] : Registry) gspecA true).2.1
      gspecA.id).1 = .ok () :=
  commitGroup_dry_run_inserts_c10 envA apiOK [] gspecA stNew rfl rfl

/-- C2: for every successful non-dry-run CommitGroup the driver
operations issued are exactly those of the state table: absent group ID
gives one CreateInstanceTemplate followed by one
CreateInstanceGroupManager sized to the allocation size, at version 1;
a watched group with unequal instance properties gives one new
CreateInstanceTemplate (no template is ever deleted) and the version
incremented by 1; a watched group with unequal allocation size gives one
ResizeInstanceGroupManager to the new size with the version unchanged;
both equal gives no driver calls; template replacement and resize are
independent and fire together when both conditions hold. -/
theorem commitGroup_state_table_c2 (env : Env) (api : API) (g : Registry)
    (config : GroupSpec) (newS : Settings) (msg : String) (g2 : Registry)
    (tr : List DriverCall)
    (hv : validate env config = .ok newS)
    (hc : CommitGroup env api g config false = (.ok msg, g2, tr)) :
    (lookupG g config.id = none →
      ∃ is, tr =
        [DriverCall.createInstanceTemplate
           (config.id ++ "-" ++ toString (1 : Int)) is,
         DriverCall.createInstanceGroupManager config.id
           { templateName := config.id ++ "-" ++ toString (1 : Int)
             targetSize := newS.spec.allocation.size
             description := newS.instanceProperties.description
             targetPool := newS.instanceProperties.targetPool
             baseInstanceName := newS.instanceProperties.namePrefix }] ∧
        ∃ st2, lookupG g2 config.id = some st2 ∧ st2.currentTemplate = 1) ∧
    (∀ st, lookupG g config.id = some st →
      (st.instanceProperties = newS.instanceProperties →
        st.spec.allocation.size = newS.spec.allocation.size → tr = []) ∧
      (st.instanceProperties ≠ newS.instanceProperties →
        st.spec.allocation.size = newS.spec.allocation.size →
        ∃ is, tr =
          [DriverCall.createInstanceTemplate
             (config.id ++ "-" ++ toString (st.currentTemplate + 1)) is] ∧
          ∃ st2, lookupG g2 config.id = some st2 ∧
            st2.currentTemplate = st.currentTemplate + 1) ∧
      (st.instanceProperties = newS.instanceProperties →
        st.spec.allocation.size ≠ newS.spec.allocation.size →
        tr = [DriverCall.resizeInstanceGroupManager config.id
                newS.spec.allocation.size] ∧
          ∃ st2, lookupG g2 config.id = some st2 ∧
            st2.currentTemplate = st.currentTemplate) ∧
      (st.instanceProperties ≠ newS.instanceProperties →
        st.spec.allocation.size ≠ newS.spec.allocation.size →
        ∃ is, tr =
          [DriverCall.createInstanceTemplate
             (config.id ++ "-" ++ toString (st.currentTemplate + 1)) is,
           DriverCall.resizeInstanceGroupManager config.id
             newS.spec.allocation.size] ∧
          ∃ st2, lookupG g2 config.id = some st2 ∧
            st2.currentTemplate = st.currentTemplate + 1)) := by
  constructor
  · intro ha
    rw [CommitGroup_eq_absent env api g config false newS hv ha] at hc
    obtain ⟨hreg, is, htr⟩ := execCommit_ok_create hc
    have h1 := (validate_ok_shape hv).1
    rw [h1] at htr
    refine ⟨is, htr, commitStore config.id newS, ?_, ?_⟩
    · rw [hreg]; exact lookupG_insertG_self g config.id (commitStore config.id newS)
    · simp [commitStore, h1]
  · intro st hw
    refine ⟨?_, ?_, ?_, ?_⟩
    · intro hp hs
      rw [CommitGroup_eq_noop env api g config false newS st hv hw hp hs] at hc
      exact (execCommit_ok_noop hc).2
    · intro hp hs
      rw [CommitGroup_eq_template env api g config newS st hv hw hp hs] at hc
      obtain ⟨hreg, is, htr⟩ := execCommit_ok_template hc
      refine ⟨is, htr, commitStore config.id
        { st with currentTemplate := st.currentTemplate + 1 }, ?_, ?_⟩
      · rw [hreg]
        exact lookupG_insertG_self g config.id _
      · simp [commitStore]
    · intro hp hs
      rw [CommitGroup_eq_resize env api g config false newS st hv hw hp hs] at hc
      obtain ⟨hreg, htr⟩ := execCommit_ok_resize hc
      refine ⟨htr, commitStore config.id st, ?_, ?_⟩
      · rw [hreg]; exact lookupG_insertG_self g config.id _
      · simp [commitStore]
    · intro hp hs
      rw [CommitGroup_eq_template_resize env api g config newS st hv hw hp hs]
        at hc
      obtain ⟨hreg, is, htr⟩ :=
        execCommit_ok_template_resize hc
      refine ⟨is, htr, commitStore config.id
        { st with currentTemplate := st.currentTemplate + 1 }, ?_, ?_⟩
      · rw [hreg]
        exact lookupG_insertG_self g config.id _
      · simp [commitStore]

/-- C2 witness: the first concrete commit of an unwatched group issues
exactly one template creation and one manager creation sized to the
allocation, at version 1. -/
theorem commitGroup_state_table_c2_witness :
    ∃ is, trFirst =
      [DriverCall.createInstanceTemplate
         (gspecA.id ++ "-" ++ toString (1 : Int)) is,
       DriverCall.createInstanceGroupManager gspecA.id
         { templateName := gspecA.id ++ "-" ++ toString (1 : Int)
           targetSize := stNew.spec.allocation.size
           description := stNew.instanceProperties.description
           targetPool := stNew.instanceProperties.targetPool
           baseInstanceName := stNew.instanceProperties.namePrefix }] ∧
    ∃ st2, lookupG regFirst gspecA.id = some st2 ∧ st2.currentTemplate = 1 :=
  (commitGroup_state_table_c2 envA apiOK [] gspecA stNew msgManaging regFirst
    trFirst rfl rfl).1 rfl

/-- C3 counterexample: committing the same instance properties with
allocation size changed from 3 to 5 over a watched group issues exactly
one resize call and leaves currentTemplateVersion unchanged, but it does
NOT leave createdTemplateNames unchanged: a duplicate of the current
template name is appended to the history. -/
theorem commitGroup_size_only_counterexample_c3 :
    (CommitGroup envB apiOK regA gspecA false).2.2 =
      [DriverCall.resizeInstanceGroupManager gidG 5] ∧
    (lookupG (CommitGroup envB apiOK regA gspecA false).2.1 gidG).map
      Settings.currentTemplate = some 1 ∧
    (lookupG (CommitGroup envB apiOK regA gspecA false).2.1 gidG).map
      Settings.createdTemplates ≠ some stA.createdTemplates := by decide

/-- C3 (amended): a non-dry-run commit for a watched group with equal
instance properties and different allocation size issues exactly one
resize call (to the new size, no template creation) and leaves
currentTemplateVersion unchanged, but it appends the entry
"<groupID>-<currentVersion>" to createdTemplateNames rather than leaving
the history unchanged. -/
theorem commitGroup_size_only_c3 (env : Env) (api : API) (g : Registry)
    (config : GroupSpec) (newS st : Settings) (msg : String) (g2 : Registry)
    (tr : List DriverCall)
    (hv : validate env config = .ok newS)
    (hw : lookupG g config.id = some st)
    (hp : st.instanceProperties = newS.instanceProperties)
    (hs : st.spec.allocation.size ≠ newS.spec.allocation.size)
    (hc : CommitGroup env api g config false = (.ok msg, g2, tr)) :
    tr = [DriverCall.resizeInstanceGroupManager config.id
            newS.spec.allocation.size] ∧
    lookupG g2 config.id = some
      { st with createdTemplates := st.createdTemplates ++
          [config.id ++ "-" ++ toString st.currentTemplate] } := by
  rw [CommitGroup_eq_resize env api g config false newS st hv hw hp hs] at hc
  obtain ⟨hreg, htr⟩ := execCommit_ok_resize hc
  exact ⟨htr, by rw [hreg]; exact lookupG_insertG_self g config.id _⟩

/-- C3 witness: the concrete size-only commit (3 to 5). -/
theorem commitGroup_size_only_c3_witness :
    ([DriverCall.resizeInstanceGroupManager gidG 5] : List DriverCall) =
      [DriverCall.resizeInstanceGroupManager gspecA.id
        stNewB.spec.allocation.size] ∧
    lookupG regADup gspecA.id = some
      { stA with createdTemplates := stA.createdTemplates ++
          [gspecA.id ++ "-" ++ toString stA.currentTemplate] } :=
  commitGroup_size_only_c3 envB apiOK regA gspecA stNewB stA msgScaling regADup
    [DriverCall.resizeInstanceGroupManager gidG 5] rfl rfl rfl (by decide) rfl

/-- C4: every successful non-dry-run commit appends exactly one entry to
the group's createdTemplateNames, namely "<groupID>-<currentVersion>"
computed after any version bump of this commit, and this happens even
when no template is created in this commit. -/
theorem commitGroup_history_append_c4 (env : Env) (api : API) (g : Registry)
    (config : GroupSpec) (msg : String) (g2 : Registry) (tr : List DriverCall)
    (hc : CommitGroup env api g config false = (.ok msg, g2, tr)) :
    ∃ st2, lookupG g2 config.id = some st2 ∧
      st2.createdTemplates =
        (match lookupG g config.id with
         | none => []
         | some st => st.createdTemplates) ++
          [config.id ++ "-" ++ toString st2.currentTemplate] := by
  cases hv : validate env config with
  | error e =>
    rw [CommitGroup_validate_error env api g config false e hv] at hc
    simp at hc
  | ok newS =>
    cases hw : lookupG g config.id with
    | none =>
      rw [CommitGroup_eq_absent env api g config false newS hv hw] at hc
      obtain ⟨hreg, is, htr⟩ := execCommit_ok_create hc
      have hsh := validate_ok_shape hv
      refine ⟨commitStore config.id newS,
        by rw [hreg]; exact lookupG_insertG_self g config.id _, ?_⟩
      simp [commitStore, hsh.2]
    | some st =>
      by_cases hp : st.instanceProperties = newS.instanceProperties
      · by_cases hs : st.spec.allocation.size = newS.spec.allocation.size
        · rw [CommitGroup_eq_noop env api g config false newS st hv hw hp hs]
            at hc
          obtain ⟨hreg, htr⟩ := execCommit_ok_noop hc
          refine ⟨commitStore config.id st,
            by rw [hreg]; exact lookupG_insertG_self g config.id _, ?_⟩
          simp [commitStore]
        · rw [CommitGroup_eq_resize env api g config false newS st hv hw hp hs]
            at hc
          obtain ⟨hreg, htr⟩ := execCommit_ok_resize hc
          refine ⟨commitStore config.id st,
            by rw [hreg]; exact lookupG_insertG_self g config.id _, ?_⟩
          simp [commitStore]
      · by_cases hs : st.spec.allocation.size = newS.spec.allocation.size
        · rw [CommitGroup_eq_template env api g config newS st hv hw hp hs]
            at hc
          obtain ⟨hreg, is, htr⟩ := execCommit_ok_template hc
          refine ⟨commitStore config.id
            { st with currentTemplate := st.currentTemplate + 1 },
            by rw [hreg]; exact lookupG_insertG_self g config.id _, ?_⟩
          simp [commitStore]
        · rw [CommitGroup_eq_template_resize env api g config newS st hv hw hp
            hs] at hc
          obtain ⟨hreg, is, htr⟩ := execCommit_ok_template_resize hc
          refine ⟨commitStore config.id
            { st with currentTemplate := st.currentTemplate + 1 },
            by rw [hreg]; exact lookupG_insertG_self g config.id _, ?_⟩
          simp [commitStore]

/-- C4 witness: a concrete no-op commit (identical spec re-committed)
still appends one (duplicate) entry to the history. -/
theorem commitGroup_history_append_c4_witness :
    ∃ st2, lookupG regADup gspecA.id = some st2 ∧
      st2.createdTemplates =
        (match lookupG regA gspecA.id with
         | none => []
         | some st => st.createdTemplates) ++
          [gspecA.id ++ "-" ++ toString st2.currentTemplate] :=
  commitGroup_history_append_c4 envA apiOK regA gspecA msgEmpty regADup [] rfl

/-- C5: when a non-dry-run commit returns an error (any driver-call
failure is propagated this way), the registry is exactly as before the
commit, and nothing is rolled back: the commit path never issues any
delete operation, so earlier successful driver calls of the same commit
stand. -/
theorem commitGroup_error_frame_c5 (env : Env) (api : API) (g : Registry)
    (config : GroupSpec) (e : String) (g2 : Registry) (tr : List DriverCall)
    (hc : CommitGroup env api g config false = (.error e, g2, tr)) :
    g2 = g ∧
    ∀ n, DriverCall.deleteInstanceTemplate n ∉ tr ∧
         DriverCall.deleteInstanceGroupManager n ∉ tr := by
  have key : ∀ (ops : List String) (cm ct um rs : Bool) (stx : Settings)
      (ts : Int),
      CommitGroup env api g config false =
        execCommit env api g config.id false ops cm ct um rs stx ts →
      g2 = g ∧
      ∀ n, DriverCall.deleteInstanceTemplate n ∉ tr ∧
           DriverCall.deleteInstanceGroupManager n ∉ tr := by
    intro ops cm ct um rs stx ts hEq
    rw [hEq] at hc
    refine ⟨execCommit_error_frame hc, ?_⟩
    intro n
    have htr : tr =
        (execCommit env api g config.id false ops cm ct um rs stx ts).2.2 := by
      rw [hc]
    constructor <;> rw [htr] <;> intro hmem <;>
      rcases execCommit_trace_mem hmem with ⟨a, b, hEq2⟩ | ⟨a, b, hEq2⟩ |
        ⟨hum, a, b, hEq2⟩ | ⟨a, b, hEq2⟩ <;> cases hEq2
  cases hv : validate env config with
  | error e2 =>
    rw [CommitGroup_validate_error env api g config false e2 hv] at hc
    simp only [Prod.mk.injEq] at hc
    refine ⟨hc.2.1.symm, ?_⟩
    intro n
    rw [← hc.2.2]
    simp
  | ok newS =>
    cases hw : lookupG g config.id with
    | none =>
      exact key _ _ _ _ _ _ _
        (CommitGroup_eq_absent env api g config false newS hv hw)
    | some st =>
      by_cases hp : st.instanceProperties = newS.instanceProperties
      · by_cases hs : st.spec.allocation.size = newS.spec.allocation.size
        · exact key _ _ _ _ _ _ _
            (CommitGroup_eq_noop env api g config false newS st hv hw hp hs)
        · exact key _ _ _ _ _ _ _
            (CommitGroup_eq_resize env api g config false newS st hv hw hp hs)
      · by_cases hs : st.spec.allocation.size = newS.spec.allocation.size
        · exact key _ _ _ _ _ _ _
            (CommitGroup_eq_template env api g config newS st hv hw hp hs)
        · exact key _ _ _ _ _ _ _
            (CommitGroup_eq_template_resize env api g config newS st hv hw hp
              hs)

/-- C5 witness: a concrete commit whose template creation fails leaves
the registry empty (the new group is not recorded) while the failed
create call is not rolled back. -/
theorem commitGroup_error_frame_c5_witness :
    (([] : Registry) = ([] : Registry)) ∧
    ∀ n, DriverCall.deleteInstanceTemplate n ∉ trFail ∧
         DriverCall.deleteInstanceGroupManager n ∉ trFail :=
  commitGroup_error_frame_c5 envA apiFailTemplate [] gspecA errBoom []
    trFail rfl

/-- The template-deletion loop issues deletions in list order: its trace
is always a prefix of the full deletion list, and on success it is the
full list. -/
theorem deleteTemplatesLoop_spec (api : API) (ts : List String) :
    (deleteTemplatesLoop api ts).2 <+:
      ts.map DriverCall.deleteInstanceTemplate ∧
    (∀ u, (deleteTemplatesLoop api ts).1 = .ok u →
      (deleteTemplatesLoop api ts).2 =
        ts.map DriverCall.deleteInstanceTemplate) := by
  induction ts with
  | nil => simp [deleteTemplatesLoop]
  | cons t rest ih =>
    cases hd : api.deleteInstanceTemplateR t with
    | error e =>
      simp only [deleteTemplatesLoop, hd, List.map_cons]
      refine ⟨⟨rest.map DriverCall.deleteInstanceTemplate, rfl⟩, ?_⟩
      intro u hu
      exact absurd hu (by simp)
    | ok u =>
      simp only [deleteTemplatesLoop, hd, List.map_cons]
      obtain ⟨⟨tail, htail⟩, hok⟩ := ih
      cases hloop : deleteTemplatesLoop api rest with
      | mk r tr =>
        rw [hloop] at htail hok
        refine ⟨⟨tail, by simp [← htail]⟩, ?_⟩
        intro u2 hu2
        have h3 : tr = List.map DriverCall.deleteInstanceTemplate rest :=
          hok u2 hu2
        simp only at hu2 ⊢
        rw [h3]

/-- C6: DestroyGroup on a watched group deletes the instance group
manager first (it is the head of the trace, before any template
deletion), then deletes every name in createdTemplateNames in order
(the trace is a prefix of the full deletion sequence, the full sequence
on success); the registry entry is removed only when everything
succeeded, and on any failure the error is returned with the registry
unchanged. -/
theorem destroyGroup_spec_c6 (api : API) (g : Registry) (id : String)
    (st : Settings) (hw : lookupG g id = some st) :
    (DestroyGroup api g id).2.2.head? =
      some (DriverCall.deleteInstanceGroupManager id) ∧
    (DestroyGroup api g id).2.2 <+:
      DriverCall.deleteInstanceGroupManager id ::
        st.createdTemplates.map DriverCall.deleteInstanceTemplate ∧
    (∀ u, (DestroyGroup api g id).1 = .ok u →
      (DestroyGroup api g id).2.1 = removeG g id ∧
      (DestroyGroup api g id).2.2 =
        DriverCall.deleteInstanceGroupManager id ::
          st.createdTemplates.map DriverCall.deleteInstanceTemplate) ∧
    (∀ e, (DestroyGroup api g id).1 = .error e →
      (DestroyGroup api g id).2.1 = g) := by
  obtain ⟨hpre, hfull⟩ := deleteTemplatesLoop_spec api st.createdTemplates
  simp only [DestroyGroup, hw]
  cases hdm : api.deleteInstanceGroupManagerR id with
  | error e =>
    refine ⟨rfl,
      ⟨st.createdTemplates.map DriverCall.deleteInstanceTemplate, rfl⟩,
      ?_, fun e2 h2 => rfl⟩
    intro u hu
    exact absurd hu (by simp)
  | ok u0 =>
    cases hloop : deleteTemplatesLoop api st.createdTemplates with
    | mk r tr =>
      rw [hloop] at hpre hfull
      cases r with
      | error e =>
        refine ⟨rfl, ?_, ?_, fun e2 h2 => rfl⟩
        · obtain ⟨tail, htail⟩ := hpre
          exact ⟨tail, by simp [htail]⟩
        · intro u hu
          exact absurd hu (by simp)
      | ok u1 =>
        have htr := hfull u1 rfl
        subst htr
        refine ⟨rfl, ⟨[], by simp⟩, fun u hu => ⟨rfl, rfl⟩, ?_⟩
        intro e2 h2
        exact absurd h2 (by simp)

/-- C6 witness: destroying the concrete watched group deletes the
manager first and removes the registry entry on success. -/
theorem destroyGroup_spec_c6_witness :
    (DestroyGroup apiOK regA gidG).2.2.head? =
      some (DriverCall.deleteInstanceGroupManager gidG) ∧
    (DestroyGroup apiOK regA gidG).2.1 = removeG regA gidG :=
  ⟨(destroyGroup_spec_c6 apiOK regA gidG stA rfl).1,
   ((destroyGroup_spec_c6 apiOK regA gidG stA rfl).2.2.1 () rfl).1⟩

/-- C7 counterexample: an allocation whose logicalIDs list is present
but empty does NOT pass the logicalIDs check — validate rejects it with
the logical-IDs validation error (the code tests the slice against nil,
and an empty non-nil slice fails that test), contrary to the claim that
an empty logicalIDs list passes. -/
theorem validate_empty_logicalIDs_counterexample_c7 :
    validate envE gspecA = .error msgLogicalIDs := rfl

/-- C7 (amended): validate fails with the corresponding validation
error on a blank group ID, on a parsed spec whose logicalIDs field is
present (even an empty list — only an absent/nil logicalIDs passes the
check), on allocation size ≤ 0, on an unresolvable flavor-plugin
reference, and on a flavor-level validation failure; and whenever
validate fails, CommitGroup returns the same error before touching the
registry or issuing any driver call. -/
theorem validate_rejections_c7 (env : Env) (gs : GroupSpec) :
    (gs.id = "" → validate env gs = .error msgBlankID) ∧
    (∀ spec, gs.id ≠ "" → env.parseProperties gs = .ok spec →
      (spec.allocation.logicalIDs.isSome →
        validate env gs = .error msgLogicalIDs) ∧
      (spec.allocation.logicalIDs = none → spec.allocation.size ≤ 0 →
        validate env gs = .error msgSizeNonPositive) ∧
      (∀ e, spec.allocation.logicalIDs = none → 0 < spec.allocation.size →
        env.flavorPlugins spec.flavor.plugin = .error e →
        validate env gs = .error (msgFlavorNotFound spec.flavor.plugin e)) ∧
      (∀ fp e, spec.allocation.logicalIDs = none → 0 < spec.allocation.size →
        env.flavorPlugins spec.flavor.plugin = .ok fp →
        fp.validateF spec.flavor.properties spec.allocation = .error e →
        validate env gs = .error e)) ∧
    (∀ e (api : API) (g : Registry) (pretend : Bool),
      validate env gs = .error e →
      CommitGroup env api g gs pretend = (.error e, g, [])) := by
  refine ⟨?_, ?_, ?_⟩
  · intro h
    simp [validate, h]
  · intro spec hid hpp
    refine ⟨?_, ?_, ?_, ?_⟩
    · intro hls
      simp [validate, hid, hpp, hls]
    · intro hln hsz
      simp [validate, hid, hpp, hln, hsz]
    · intro e hln hpos hfp
      have hns : ¬spec.allocation.size ≤ 0 := by omega
      simp [validate, hid, hpp, hln, hns, hfp]
    · intro fp e hln hpos hfl hval
      have hns : ¬spec.allocation.size ≤ 0 := by omega
      simp [validate, hid, hpp, hln, hns, hfl, hval]
  · intro e api g pretend hv
    exact CommitGroup_validate_error env api g gs pretend e hv

/-- C7 witness: validating a blank group ID fails with the blank-ID
error. -/
theorem validate_rejections_c7_witness :
    validate envA gspecBlank = .error msgBlankID :=
  (validate_rejections_c7 envA gspecBlank).1 rfl

/-- C8: for a watched group whose driver list call and per-member fetch
loop both succeed, DescribeGroup succeeds and reports converged = true
exactly when the number of member instances returned by the driver
equals the allocation size stored in the registry for that group. -/
theorem describeGroup_converged_c8 (env : Env) (api : API) (g : Registry)
    (id : String) (st : Settings) (urls : List String)
    (ds : List InstanceDescription) (tr : List DriverCall)
    (hw : lookupG g id = some st)
    (hl : api.listInstanceGroupInstancesR id = .ok urls)
    (hd : describeInstancesLoop env api urls = (.ok ds, tr)) :
    ∃ d tr2, DescribeGroup env api g id = (.ok d, tr2) ∧
      (d.converged = true ↔ (urls.length : Int) = st.spec.allocation.size) ∧
      d.instances = ds := by
  simp only [DescribeGroup, hw, hl, hd]
  refine ⟨_, _, rfl, ?_, rfl⟩
  simp [beq_iff_eq]

/-- C8 witness: the concrete watched group stores size 3 but the driver
lists one member, so DescribeGroup reports converged = false. -/
theorem describeGroup_converged_c8_witness :
    ∃ d tr2, DescribeGroup envA apiOK regA gidG = (.ok d, tr2) ∧
      (d.converged = true ↔
        ((listIG.length : Int) = stA.spec.allocation.size)) ∧
      d.instances = dsA :=
  describeGroup_converged_c8 envA apiOK regA gidG stA listIG dsA
    [DriverCall.getInstance instI1] rfl rfl rfl

/-- C9: CommitGroup never invokes the driver's SetInstanceTemplate
operation: for every environment, driver behavior, registry state, input
spec and dry-run flag, no SetInstanceTemplate call appears in the trace
(the updateManager slot of the state table is never reachable). -/
theorem commitGroup_no_setInstanceTemplate_c9 (env : Env) (api : API)
    (g : Registry) (config : GroupSpec) (pretend : Bool) (gn tn : String) :
    DriverCall.setInstanceTemplate gn tn ∉
      (CommitGroup env api g config pretend).2.2 := by
  intro hmem
  have key : ∀ (ops : List String) (cm ct rs : Bool)
      (stx : Settings) (ts : Int),
      CommitGroup env api g config pretend =
        execCommit env api g config.id pretend ops cm ct false rs stx ts →
      False := by
    intro ops cm ct rs stx ts hEq
    rw [hEq] at hmem
    rcases execCommit_trace_mem hmem with ⟨a, b, h2⟩ | ⟨a, b, h2⟩ |
      ⟨hum, a, b, h2⟩ | ⟨a, b, h2⟩
    · cases h2
    · cases h2
    · cases hum
    · cases h2
  cases hv : validate env config with
  | error e =>
    rw [CommitGroup_validate_error env api g config pretend e hv] at hmem
    simp at hmem
  | ok newS =>
    cases hw : lookupG g config.id with
    | none =>
      exact key _ _ _ _ _ _
        (CommitGroup_eq_absent env api g config pretend newS hv hw)
    | some st =>
      by_cases hp : st.instanceProperties = newS.instanceProperties
      · by_cases hs : st.spec.allocation.size = newS.spec.allocation.size
        · exact key _ _ _ _ _ _
            (CommitGroup_eq_noop env api g config pretend newS st hv hw hp hs)
        · exact key _ _ _ _ _ _
            (CommitGroup_eq_resize env api g config pretend newS st hv hw hp
              hs)
      · by_cases hs : st.spec.allocation.size = newS.spec.allocation.size
        · cases pretend with
          | true =>
            exact key _ _ _ _ _ _
              (CommitGroup_eq_template_pretend env api g config newS st hv hw
                hp hs)
          | false =>
            exact key _ _ _ _ _ _
              (CommitGroup_eq_template env api g config newS st hv hw hp hs)
        · cases pretend with
          | true =>
            exact key _ _ _ _ _ _
              (CommitGroup_eq_template_resize_pretend env api g config newS st
                hv hw hp hs)
          | false =>
            exact key _ _ _ _ _ _
              (CommitGroup_eq_template_resize env api g config newS st hv hw
                hp hs)

end InfrakitGcp
